import Mathlib

/-!
# Shared chunk cache (H5SC)

A shallow embedding of src/H5SC.c together with the declarations of
src/H5SCpkg.h and src/H5SCprivate.h.

Every C function becomes a function on an explicit program state `World`:
the live cache structs, the user memory buffers, the raw chunk bytes stored
in the file, the datasets, the log of layout callbacks invoked so far and the
error stack.  A pointer is an optional address, `none` being NULL.  A failed
`assert` aborts the program, so the embedded function has no result there
(`none`).  FUNC_ENTER_NOAPI and FUNC_LEAVE_NOAPI are function entry and exit
bookkeeping whose definitions are not among the sources; the body between
them is what is embedded, and HGOTO_ERROR records its message on the error
stack, sets the return value and jumps to `done`.
-/

namespace H5SC

/-! ## Data model -/

/-- Return status of the library routines (herr_t with the two values SUCCEED and FAIL). -/
inductive herr_t where
  | SUCCEED
  | FAIL
deriving DecidableEq, Repr

/-- Main struct for a shared chunk cache (struct H5SC_t in H5SCpkg.h): one int member. -/
structure H5SC_t where
  placeholder : Int
deriving DecidableEq, Repr

/-- Members of H5SC_layout_ops_t (H5SCprivate.h), in declaration order. -/
inductive H5SC_layout_ops_t where
  | lookup
  | decode
  | decode_defined_values
  | new_chunk
  | condense
  | encode
  | evict
  | encode_in_place
  | insert
  | selection_read
  | vector_read
  | selection_write
  | vector_write
  | scatter_mem
  | gather_mem
  | fill
  | defined_values
  | erase_values
  | evict_values
  | delete_chunk
deriving DecidableEq, Repr

/-- Identity of a chunk: the dataset and the scaled chunk coordinates. -/
structure ChunkKey where
  dset : Nat
  scaled : List Nat
deriving DecidableEq, Repr

/-- One invocation of a layout callback, for the chunk it was invoked on. -/
structure LayoutCall where
  op : H5SC_layout_ops_t
  chunk : ChunkKey
deriving DecidableEq, Repr

/-- The part of a dataset (H5D_t, declared outside the sources) the cache contract refers to:
current extent, chunk dimensions and fill value. -/
structure H5D_t where
  dims : List Nat
  chunk_dims : List Nat
  fill_value : Int
deriving DecidableEq, Repr

/-- One entry of the dset_info array handed to H5SC_read and H5SC_write (H5D_dset_io_info_t,
declared outside the sources): the dataset, the chunk addressed, the selected elements of that
chunk (row-major offsets) and the address of the user memory buffer. -/
structure H5D_dset_io_info_t where
  dset : Nat
  scaled : List Nat
  file_space : List Nat
  buf : Nat
deriving DecidableEq, Repr

/-- Datatype information of one I/O call (H5D_io_type_info_t, declared outside the sources). -/
structure H5D_io_type_info_t where
  src_type_size : Nat
  dst_type_size : Nat
deriving DecidableEq, Repr

/-- Program state the cache routines run in. -/
structure World where
  /-- live blocks holding a struct H5SC_t, by address -/
  heap : List (Nat × H5SC_t)
  /-- user memory buffers, by address -/
  mem : List (Nat × List Int)
  /-- raw chunk contents stored in the file -/
  disk : List (ChunkKey × List Int)
  /-- open datasets, by address -/
  dsets : List (Nat × H5D_t)
  /-- layout callbacks invoked so far, oldest first -/
  calls : List LayoutCall
  /-- error stack, oldest first -/
  errs : List String
deriving DecidableEq, Repr

/-- Cache struct stored at an address, if that address is a live cache block. -/
def World.cacheAt (w : World) (a : Nat) : Option H5SC_t :=
  w.heap.lookup a

/-- Contents of the user buffer at an address. -/
def World.bufAt (w : World) (a : Nat) : Option (List Int) :=
  w.mem.lookup a

/-- Raw bytes the file holds for a chunk. -/
def World.diskAt (w : World) (k : ChunkKey) : Option (List Int) :=
  w.disk.lookup k

/-- Chunk entries a cache struct indexes.  struct H5SC_t has the single member placeholder and
no table, list or pointer through which an entry could be reached, so the result does not depend
on the struct. -/
def H5SC_t.entries (_c : H5SC_t) : List ChunkKey :=
  []

/-- Chunk entries indexed by the cache at an address. -/
def World.entriesOf (w : World) (a : Nat) : List ChunkKey :=
  match w.cacheAt a with
  | some c => c.entries
  | none => []

/-- Layout callbacks invoked between an earlier state and a later one. -/
def newCalls (w w' : World) : List LayoutCall :=
  w'.calls.drop w.calls.length

/-- Release of a block obtained from H5MM_malloc (H5MM_free, declared outside the sources): the
block stops being live.  Releasing an address that is not a live block is undefined in C and has
no result here. -/
def H5MM_free (w : World) (a : Nat) : Option World :=
  match w.cacheAt a with
  | none => none
  | some _ => some ⟨w.heap.filter (fun p => p.1 ≠ a), w.mem, w.disk, w.dsets, w.calls, w.errs⟩

/-! ## The routines of H5SC.c -/

/-- H5SC_create: creates a new, empty shared chunk cache.  The outcome of
H5MM_malloc(sizeof(H5SC_t)) is the argument m: none when the allocation fails, otherwise the
address of the new block and its (indeterminate) initial contents. -/
def H5SC_create (w : World) (file : Option Nat) (_fapl_id : Int) (m : Option (Nat × H5SC_t)) :
    Option (Option Nat × World) :=
  match file with
  | none => none
  | some _ =>
    match m with
    | none =>
      some (none, ⟨w.heap, w.mem, w.disk, w.dsets, w.calls,
        w.errs ++ ["unable to allocate buffer for shared chunk cache"]⟩)
    | some (a, c) =>
      some (some a, ⟨(a, c) :: w.heap, w.mem, w.disk, w.dsets, w.calls, w.errs⟩)

/-- H5SC_destroy: destroys a shared chunk cache, freeing all data used.  Does not flush
chunks. -/
def H5SC_destroy (w : World) (cache : Option Nat) : Option (herr_t × World) :=
  match cache with
  | none => none
  | some a =>
    match H5MM_free w a with
    | none => none
    | some w' => some (herr_t.SUCCEED, w')

/-- H5SC_flush: flushes all cached data from a shared chunk cache. -/
def H5SC_flush (w : World) (cache : Option Nat) : Option (herr_t × World) :=
  match cache with
  | none => none
  | some _ => some (herr_t.SUCCEED, w)

/-- H5SC_flush_dset: flushes all data cached for a single dataset; if evict is true, also evicts
all cached data. -/
def H5SC_flush_dset (w : World) (cache : Option Nat) (dset : Option Nat) (_evict : Bool) :
    Option (herr_t × World) :=
  match cache, dset with
  | some _, some _ => some (herr_t.SUCCEED, w)
  | _, _ => none

/-- H5SC_read: reads raw data through a shared chunk cache. -/
def H5SC_read (w : World) (cache : Option Nat) (count : Nat)
    (dset_info : Option (List H5D_dset_io_info_t)) (io_type_info : Option H5D_io_type_info_t) :
    Option (herr_t × World) :=
  if cache.isNone then none
  else if ¬ (count = 0 ∨ dset_info.isSome) then none
  else if io_type_info.isNone then none
  else some (herr_t.SUCCEED, w)

/-- H5SC_write: writes raw data through a shared chunk cache. -/
def H5SC_write (w : World) (cache : Option Nat) (count : Nat)
    (dset_info : Option (List H5D_dset_io_info_t)) (io_type_info : Option H5D_io_type_info_t) :
    Option (herr_t × World) :=
  if cache.isNone then none
  else if ¬ (count = 0 ∨ dset_info.isSome) then none
  else if io_type_info.isNone then none
  else some (herr_t.SUCCEED, w)

/-- H5SC_direct_chunk_read: reads the chunk that starts at the coordinates given by offset
directly from disk to buf. -/
def H5SC_direct_chunk_read (w : World) (cache : Option Nat) (dset : Option Nat)
    (offset : Option (List Nat)) (buf : Option Nat) : Option (herr_t × World) :=
  match cache, dset, offset, buf with
  | some _, some _, some _, some _ => some (herr_t.SUCCEED, w)
  | _, _, _, _ => none

/-- H5SC_direct_chunk_write: writes the chunk that starts at the coordinates given by offset
directly from buf to disk. -/
def H5SC_direct_chunk_write (w : World) (cache : Option Nat) (dset : Option Nat)
    (offset : Option (List Nat)) (buf : Option Nat) : Option (herr_t × World) :=
  match cache, dset, offset, buf with
  | some _, some _, some _, some _ => some (herr_t.SUCCEED, w)
  | _, _, _, _ => none

/-- H5SC_set_extent_notify: called after H5Dset_extent() has been called for a dataset. -/
def H5SC_set_extent_notify (w : World) (cache : Option Nat) (dset : Option Nat)
    (old_dims : Option (List Nat)) : Option (herr_t × World) :=
  match cache, dset, old_dims with
  | some _, some _, some _ => some (herr_t.SUCCEED, w)
  | _, _, _ => none

/-! ## Call sequences and example data -/

/-- H5SC_write of one dset_info entry, H5SC_flush, H5SC_destroy, H5SC_create on the same file,
then H5SC_read of one dset_info entry through the new cache. -/
def writeFlushReopenRead (w : World) (cache file : Nat) (fapl_id : Int)
    (m : Option (Nat × H5SC_t)) (wr rd : H5D_dset_io_info_t) (ti : H5D_io_type_info_t) :
    Option (herr_t × World) :=
  (H5SC_write w (some cache) 1 (some [wr]) (some ti)).bind fun r1 =>
  (H5SC_flush r1.2 (some cache)).bind fun r2 =>
  (H5SC_destroy r2.2 (some cache)).bind fun r3 =>
  (H5SC_create r3.2 (some file) fapl_id m).bind fun r4 =>
  H5SC_read r4.2 r4.1 1 (some [rd]) (some ti)

/-- H5SC_direct_chunk_write from the buffer at src, then H5SC_direct_chunk_read of the same
offset into the buffer at dst. -/
def directWriteThenRead (w : World) (cache dset : Nat) (offset : List Nat) (src dst : Nat) :
    Option (herr_t × World) :=
  (H5SC_direct_chunk_write w (some cache) (some dset) (some offset) (some src)).bind fun r1 =>
  H5SC_direct_chunk_read r1.2 (some cache) (some dset) (some offset) (some dst)

/-- H5SC_write of one dset_info entry followed by H5SC_read of another through the same
cache. -/
def writeThenRead (w : World) (cache : Nat) (wr rd : H5D_dset_io_info_t)
    (ti : H5D_io_type_info_t) : Option (herr_t × World) :=
  (H5SC_write w (some cache) 1 (some [wr]) (some ti)).bind fun r1 =>
  H5SC_read r1.2 (some cache) 1 (some [rd]) (some ti)

/-- Example state: a live cache at address 10; dataset 1 of extent 8x8 in chunks of 4x4 with
fill value 0; a user buffer at 100 holding sixteen 7s, one at 200 holding sixteen 0s, one at 300
holding the single value 99 and one at 400 holding 1 2 3 4; an empty file; no callback invoked
and no error recorded. -/
def exampleWorld : World :=
  ⟨[(10, ⟨0⟩)],
    [(100, List.replicate 16 7), (200, List.replicate 16 0), (300, [99]), (400, [1, 2, 3, 4])],
    [], [(1, ⟨[8, 8], [4, 4], 0⟩)], [], []⟩

/-- Example I/O type information: int32 in memory and in the file, no conversion. -/
def int32Info : H5D_io_type_info_t :=
  ⟨4, 4⟩

/-- Selection of all sixteen elements of a 4x4 chunk. -/
def fullChunk : List Nat :=
  List.range 16

/-- H5SC_write of one dset_info entry, H5SC_direct_chunk_write of the chunk at offset from the
buffer at src, then H5SC_read of one dset_info entry through the same cache. -/
def writeDirectWriteRead (w : World) (cache : Nat) (wr rd : H5D_dset_io_info_t)
    (ti : H5D_io_type_info_t) (offset : List Nat) (src : Nat) : Option (herr_t × World) :=
  (H5SC_write w (some cache) 1 (some [wr]) (some ti)).bind fun r1 =>
  (H5SC_direct_chunk_write r1.2 (some cache) (some wr.dset) (some offset) (some src)).bind
    fun r2 =>
  H5SC_read r2.2 (some cache) 1 (some [rd]) (some ti)

/-! ## Lifecycle -/

/-- After a block is filtered out of the heap, its address is no longer found. -/
theorem lookup_filter_ne (a : Nat) (h : List (Nat × H5SC_t)) :
    (h.filter (fun p => p.1 ≠ a)).lookup a = none := by
  induction h with
  | nil => rfl
  | cons p t ih =>
    obtain ⟨k, v⟩ := p
    rw [List.filter_cons]
    by_cases hp : k = a
    · rw [if_neg (by simp [hp])]
      exact ih
    · rw [if_pos (by simp [hp])]
      have hne : (a == k) = false := by
        simp only [beq_eq_false_iff_ne, ne_eq]
        exact fun e => hp e.symm
      simp only [List.lookup, hne]
      exact ih

/-- C3: H5SC_destroy always succeeds and never flushes.  For every state and every live cache,
whatever the struct holds, the call returns SUCCEED, invokes no layout callback, leaves the file,
the user buffers and the datasets as they were, and the cache block is gone afterwards. -/
theorem H5SC_destroy_succeeds_never_flushes (w : World) (a : Nat) (c : H5SC_t)
    (hlive : w.cacheAt a = some c) :
    ∃ w', H5SC_destroy w (some a) = some (herr_t.SUCCEED, w') ∧
      newCalls w w' = [] ∧ w'.calls = w.calls ∧ w'.disk = w.disk ∧ w'.mem = w.mem ∧
      w'.dsets = w.dsets ∧ w'.cacheAt a = none := by
  refine ⟨⟨w.heap.filter (fun p => p.1 ≠ a), w.mem, w.disk, w.dsets, w.calls, w.errs⟩, ?_⟩
  refine ⟨?_, ?_, rfl, rfl, rfl, rfl, ?_⟩
  · simp [H5SC_destroy, H5MM_free, hlive]
  · simp [newCalls]
  · exact lookup_filter_ne a w.heap

/-- Witness for C3: destruction of the live cache of the example state. -/
theorem H5SC_destroy_succeeds_never_flushes_witness :
    ∃ w', H5SC_destroy exampleWorld (some 10) = some (herr_t.SUCCEED, w') ∧
      newCalls exampleWorld w' = [] ∧ w'.calls = exampleWorld.calls ∧
      w'.disk = exampleWorld.disk ∧ w'.mem = exampleWorld.mem ∧
      w'.dsets = exampleWorld.dsets ∧ w'.cacheAt 10 = none :=
  H5SC_destroy_succeeds_never_flushes exampleWorld 10 ⟨0⟩ (by decide)

/-- C4: H5SC_create returns NULL exactly when the allocation of the cache struct fails, and
otherwise the address of a newly created, empty cache.  For every state, every non-null file and
every fapl_id the call returns; the result is NULL if and only if H5MM_malloc failed; a non-null
result is the address H5MM_malloc returned, which was not a live cache before the call, is one
after it and indexes no chunk entry; and no layout callback is invoked.  The hypothesis is the
contract of the allocator: a block it hands out is not already live. -/
theorem H5SC_create_null_iff_alloc_fails (w : World) (f : Nat) (fapl_id : Int)
    (m : Option (Nat × H5SC_t)) (hfresh : ∀ a c, m = some (a, c) → w.cacheAt a = none) :
    ∃ r w', H5SC_create w (some f) fapl_id m = some (r, w') ∧
      (r = none ↔ m = none) ∧
      (∀ a, r = some a →
        w.cacheAt a = none ∧ (∃ c, m = some (a, c) ∧ w'.cacheAt a = some c) ∧
        w'.entriesOf a = []) ∧
      newCalls w w' = [] ∧ w'.disk = w.disk ∧ w'.mem = w.mem := by
  cases m with
  | none =>
    refine ⟨none, _, rfl, by simp, ?_, by simp [newCalls], rfl, rfl⟩
    intro a ha
    cases ha
  | some p =>
    obtain ⟨a, c⟩ := p
    refine ⟨some a, _, rfl, by simp, ?_, by simp [newCalls], rfl, rfl⟩
    intro b hb
    cases hb
    refine ⟨hfresh a c rfl, ⟨c, rfl, ?_⟩, ?_⟩
    · simp [World.cacheAt, List.lookup]
    · simp [World.entriesOf, World.cacheAt, List.lookup, H5SC_t.entries]

/-- Witness for C4: creation in the example state with an allocation that succeeds at the unused
address 11. -/
theorem H5SC_create_null_iff_alloc_fails_witness :
    ∃ r w', H5SC_create exampleWorld (some 1) 0 (some (11, ⟨5⟩)) = some (r, w') ∧
      (r = none ↔ (some (11, (⟨5⟩ : H5SC_t)) : Option (Nat × H5SC_t)) = none) ∧
      (∀ a, r = some a →
        exampleWorld.cacheAt a = none ∧
        (∃ c, (some (11, (⟨5⟩ : H5SC_t)) : Option (Nat × H5SC_t)) = some (a, c) ∧
          w'.cacheAt a = some c) ∧
        w'.entriesOf a = []) ∧
      newCalls exampleWorld w' = [] ∧ w'.disk = exampleWorld.disk ∧ w'.mem = exampleWorld.mem :=
  H5SC_create_null_iff_alloc_fails exampleWorld 1 0 (some (11, ⟨5⟩)) (by
    intro a c h
    cases h
    decide)

/-! ## Flushing -/

/-- C5: H5SC_flush is idempotent.  For every state and every non-null cache the first flush
returns SUCCEED, and a second flush issued immediately after it returns SUCCEED as well, invokes
no layout callback at all (so no encode, encode_in_place or insert) and ends in exactly the state
the first flush ended in. -/
theorem H5SC_flush_idempotent (w : World) (a : Nat) :
    ∃ w1, H5SC_flush w (some a) = some (herr_t.SUCCEED, w1) ∧
      ∃ w2, H5SC_flush w1 (some a) = some (herr_t.SUCCEED, w2) ∧
        newCalls w1 w2 = [] ∧ w2 = w1 :=
  ⟨w, rfl, w, rfl, by simp [newCalls], rfl⟩

/-! ## Evaluations of the code on concrete call sequences -/

/-- C1: the write, flush, re-open, read round trip evaluated on the code.  In the example state
the sixteen 7s of the buffer at 100 are written to the whole 4x4 chunk (0,0) of dataset 1, the
cache is flushed and destroyed, a new cache is created at address 11 on the same file and the
same chunk is read into the buffer at 200.  Every call returns SUCCEED, yet the buffer at 200
still holds its sixteen 0s and not the sixteen 7s written, the file holds nothing for the
chunk and no layout callback has been invoked. -/
theorem write_flush_reopen_read_leaves_buffer :
    (writeFlushReopenRead exampleWorld 10 1 0 (some (11, ⟨0⟩))
        ⟨1, [0, 0], fullChunk, 100⟩ ⟨1, [0, 0], fullChunk, 200⟩ int32Info).map
      (fun r => (r.1, r.2.bufAt 200, r.2.diskAt ⟨1, [0, 0]⟩, r.2.calls)) =
      some (herr_t.SUCCEED, some (List.replicate 16 0), none, []) ∧
    List.replicate 16 (0 : Int) ≠ List.replicate 16 7 := by
  decide

/-- C2: the direct chunk round trip evaluated on the code.  In the example state the bytes
1 2 3 4 of the buffer at 400 are written directly to the chunk of dataset 1 at offset (0,0) and
the chunk is read back directly into the buffer at 200.  Both calls return SUCCEED, yet the
buffer at 200 still holds its sixteen 0s and not 1 2 3 4, and the file holds nothing for the
chunk. -/
theorem direct_write_then_read_leaves_buffer :
    (directWriteThenRead exampleWorld 10 1 [0, 0] 400 200).map
      (fun r => (r.1, r.2.bufAt 200, r.2.bufAt 400, r.2.diskAt ⟨1, [0, 0]⟩)) =
      some (herr_t.SUCCEED, some (List.replicate 16 0), some [1, 2, 3, 4], none) ∧
    List.replicate 16 (0 : Int) ≠ [1, 2, 3, 4] := by
  decide

/-- C10: a read outside the defined elements evaluated on the code.  In the example state only
element 0 of the previously absent chunk (0,0) of dataset 1 is written, then element 1 of the
same chunk is read into the buffer at 300, which held 99 before.  Both calls return SUCCEED, yet
the buffer at 300 still holds 99 and not the fill value 0 of the dataset, and the
defined_values callback has not been invoked. -/
theorem read_outside_defined_leaves_buffer :
    (writeThenRead exampleWorld 10 ⟨1, [0, 0], [0], 100⟩ ⟨1, [0, 0], [1], 300⟩ int32Info).map
      (fun r => (r.1, r.2.bufAt 300, (r.2.dsets.lookup 1).map (fun d => d.fill_value),
        r.2.calls)) =
      some (herr_t.SUCCEED, some [99], some 0, []) := by
  decide

/-- C12: the eviction before a direct chunk write evaluated on the code.  In the example state
the whole chunk (0,0) of dataset 1 is written through the cache with sixteen 7s, the bytes
1 2 3 4 of the buffer at 400 are then written directly to the chunk at offset (0,0), and the first
four elements of the chunk are read through the cache into the buffer at 200.  All three calls
return SUCCEED and the cache indexes no entry, yet the file holds nothing for the chunk and the
buffer at 200 still holds its sixteen 0s: the read observes neither the bytes 1 2 3 4 nor the
earlier 7s. -/
theorem direct_write_then_cached_read_leaves_buffer :
    (writeDirectWriteRead exampleWorld 10 ⟨1, [0, 0], fullChunk, 100⟩
        ⟨1, [0, 0], [0, 1, 2, 3], 200⟩ int32Info [0, 0] 400).map
      (fun r => (r.1, r.2.entriesOf 10, r.2.diskAt ⟨1, [0, 0]⟩, r.2.bufAt 200)) =
      some (herr_t.SUCCEED, [], none, some (List.replicate 16 0)) ∧
    (List.replicate 16 (0 : Int)).take 4 ≠ [1, 2, 3, 4] := by
  decide

/-! ## Frame properties of the remaining routines -/

/-- C13: an extent change leaves in-range chunks untouched.  For every state, every non-null
cache, dataset and old_dims, H5SC_set_extent_notify returns SUCCEED in a state equal to the one
it was called in, so every cache struct, every entry it indexes, every buffer and the file are as
before, and it invokes no layout callback, in particular no decode, erase_values or
delete_chunk. -/
theorem H5SC_set_extent_notify_frame (w : World) (a d : Nat) (old_dims : List Nat) :
    ∃ w', H5SC_set_extent_notify w (some a) (some d) (some old_dims) =
        some (herr_t.SUCCEED, w') ∧
      w' = w ∧ w'.entriesOf a = w.entriesOf a ∧ w'.heap = w.heap ∧ w'.disk = w.disk ∧
      w'.mem = w.mem ∧ newCalls w w' = [] ∧
      (newCalls w w').filter (fun c => c.op = H5SC_layout_ops_t.decode ∨
        c.op = H5SC_layout_ops_t.erase_values ∨ c.op = H5SC_layout_ops_t.delete_chunk) = [] :=
  ⟨w, rfl, rfl, rfl, rfl, rfl, rfl, by simp [newCalls], by simp [newCalls]⟩

/-- C14: empty batches are accepted.  For every state, non-null cache and non-null
io_type_info, H5SC_read and H5SC_write with count = 0 pass every assertion whatever dset_info is,
NULL included, return SUCCEED and leave the whole state (cache structs and user buffers
included) as it was; with a positive count and a NULL dset_info the assertion fails, and with a
positive count the call has a result exactly when dset_info is non-null. -/
theorem H5SC_read_write_empty_batch (w : World) (a count : Nat)
    (di : Option (List H5D_dset_io_info_t)) (ti : H5D_io_type_info_t) :
    H5SC_read w (some a) 0 di (some ti) = some (herr_t.SUCCEED, w) ∧
    H5SC_write w (some a) 0 di (some ti) = some (herr_t.SUCCEED, w) ∧
    H5SC_read w (some a) 0 none (some ti) = some (herr_t.SUCCEED, w) ∧
    H5SC_write w (some a) 0 none (some ti) = some (herr_t.SUCCEED, w) ∧
    H5SC_read w (some a) (count + 1) none (some ti) = none ∧
    H5SC_write w (some a) (count + 1) none (some ti) = none ∧
    (H5SC_read w (some a) (count + 1) di (some ti)).isSome = di.isSome ∧
    (H5SC_write w (some a) (count + 1) di (some ti)).isSome = di.isSome := by
  refine ⟨?_, ?_, ?_, ?_, ?_, ?_, ?_, ?_⟩ <;> cases di <;> simp [H5SC_read, H5SC_write]

/-- C15: the non-lifecycle operations never fail and never change the cache.  For every state
and all arguments that satisfy the asserted preconditions (non-null pointers, and for H5SC_read
and H5SC_write count = 0 or a non-null dset_info), each of H5SC_flush, H5SC_flush_dset,
H5SC_read, H5SC_write, H5SC_direct_chunk_read, H5SC_direct_chunk_write and
H5SC_set_extent_notify returns SUCCEED, never FAIL, in a state equal to the one it was called in,
so every struct H5SC_t is unchanged and no callback of H5SC_layout_ops_t has been invoked. -/
theorem H5SC_operations_succeed_unchanged (w : World) (a d buf count : Nat) (evict : Bool)
    (di : Option (List H5D_dset_io_info_t)) (ti : H5D_io_type_info_t)
    (offset old_dims : List Nat) (hdi : count = 0 ∨ di.isSome = true) :
    H5SC_flush w (some a) = some (herr_t.SUCCEED, w) ∧
    H5SC_flush_dset w (some a) (some d) evict = some (herr_t.SUCCEED, w) ∧
    H5SC_read w (some a) count di (some ti) = some (herr_t.SUCCEED, w) ∧
    H5SC_write w (some a) count di (some ti) = some (herr_t.SUCCEED, w) ∧
    H5SC_direct_chunk_read w (some a) (some d) (some offset) (some buf) =
      some (herr_t.SUCCEED, w) ∧
    H5SC_direct_chunk_write w (some a) (some d) (some offset) (some buf) =
      some (herr_t.SUCCEED, w) ∧
    H5SC_set_extent_notify w (some a) (some d) (some old_dims) = some (herr_t.SUCCEED, w) ∧
    herr_t.SUCCEED ≠ herr_t.FAIL ∧ newCalls w w = [] := by
  refine ⟨rfl, rfl, ?_, ?_, rfl, rfl, rfl, by decide, by simp [newCalls]⟩
  · simp [H5SC_read, hdi]
  · simp [H5SC_write, hdi]

/-- Witness for C15: the seven operations in the example state, with a batch of one entry. -/
theorem H5SC_operations_succeed_unchanged_witness :
    H5SC_flush exampleWorld (some 10) = some (herr_t.SUCCEED, exampleWorld) ∧
    H5SC_flush_dset exampleWorld (some 10) (some 1) true =
      some (herr_t.SUCCEED, exampleWorld) ∧
    H5SC_read exampleWorld (some 10) 1 (some [⟨1, [0, 0], fullChunk, 200⟩]) (some int32Info) =
      some (herr_t.SUCCEED, exampleWorld) ∧
    H5SC_write exampleWorld (some 10) 1 (some [⟨1, [0, 0], fullChunk, 200⟩]) (some int32Info) =
      some (herr_t.SUCCEED, exampleWorld) ∧
    H5SC_direct_chunk_read exampleWorld (some 10) (some 1) (some [0, 0]) (some 200) =
      some (herr_t.SUCCEED, exampleWorld) ∧
    H5SC_direct_chunk_write exampleWorld (some 10) (some 1) (some [0, 0]) (some 200) =
      some (herr_t.SUCCEED, exampleWorld) ∧
    H5SC_set_extent_notify exampleWorld (some 10) (some 1) (some [8, 8]) =
      some (herr_t.SUCCEED, exampleWorld) ∧
    herr_t.SUCCEED ≠ herr_t.FAIL ∧ newCalls exampleWorld exampleWorld = [] :=
  H5SC_operations_succeed_unchanged exampleWorld 10 1 200 1 true
    (some [⟨1, [0, 0], fullChunk, 200⟩]) int32Info [0, 0] [8, 8] (Or.inr rfl)

end H5SC
